import Mathlib

/-!
Shallow embedding of `src/lib/client/src/jup.rs` (the Jupiter AMM adapter for an
OpenBook v2 market): the `OpenBookMarket` struct and its `Amm` implementation
(`from_keyed_account`, `get_accounts_to_update`, `update`, `quote`,
`get_swap_and_account_metas`).

Modelling conventions:
* `Pubkey` is `Nat`; the distinguished program/sysvar addresses are fixed constants.
* Rust `i64` values are `Int`; `/` and `%` on `i64` are `Int.tdiv` / `Int.tmod`
  (truncation toward zero, matching Rust).  Rust `u64` values are `Nat`.
* Account payloads (`Vec<u8>`) are `List Nat`; the external deserializers
  (`Market::try_deserialize`, `BookSide::try_deserialize`,
  `EventHeap::try_deserialize`, `bincode::deserialize::<Clock>`,
  `Market::oracle_price`, `amounts_from_book`, `remaining_accounts_to_crank`,
  anchor's generated `to_account_metas`) live outside this crate's source, so they
  are taken as parameters of the embedded functions (arbitrary total functions),
  or, where the claims need their shape, modelled from the spec.
* `Result<T>` is `Except`.  A Rust `.unwrap()` failure is a panic, not a returned
  error; `update` therefore returns an `UpdateOutcome` distinguishing a returned
  `Err` from a panic, paired with the state of `&mut self` at the point the call
  stopped (Rust mutates the receiver in place, so partially-assigned fields are
  observable for the atomicity claims).
-/

/-- Solana public keys, modelled as naturals. -/
abbrev Pubkey := Nat

/-- The sysvar clock address `solana_sdk::sysvar::clock::ID` (a distinguished constant). -/
def clockID : Pubkey := 1000001

/-- The SPL token program address `Token::id()` (a distinguished constant). -/
def tokenProgramID : Pubkey := 1000002

/-- The system program address `System::id()` (a distinguished constant). -/
def systemProgramID : Pubkey := 1000003

/-- Raw account bytes (`Vec<u8>`). -/
abbrev Blob := List Nat

/-- `solana_sdk::account::Account`, reduced to the data this adapter reads. -/
structure Account where
  data : Blob
deriving DecidableEq, Repr

/-- A key plus its account, as in `jupiter_amm_interface::KeyedAccount` and
`accounts_zerocopy::KeyedAccount`. -/
structure KeyedAccount where
  key : Pubkey
  account : Account
deriving DecidableEq, Repr

/-- `AccountMap`: a finite address-to-account mapping, as an association list. -/
abbrev AccountMap := List (Pubkey × Account)

/-- `account_map.get(&key)`: first binding of `key`, if any. -/
def AccountMap.get (m : AccountMap) (k : Pubkey) : Option Account :=
  (m.find? (fun kv => kv.1 == k)).map (fun kv => kv.2)

/-- `openbook_v2::state::Side`. -/
inductive Side where
  | Bid
  | Ask
deriving DecidableEq, Repr

/-- `openbook_v2::state::BookSide`: an opaque zero-copy blob for this adapter; the
adapter never looks inside it, only decodes, stores and hands it to the external
book-walking code.  The payload tags distinct decoded values. -/
structure BookSide where
  raw : Nat
deriving DecidableEq, Repr

/-- `BookSide::zeroed()`. -/
def BookSide.zeroed : BookSide := ⟨0⟩

/-- `openbook_v2::state::EventHeap`, opaque to this adapter (see `BookSide`). -/
structure EventHeap where
  raw : Nat
deriving DecidableEq, Repr

/-- `EventHeap::zeroed()`. -/
def EventHeap.zeroed : EventHeap := ⟨0⟩

/-- `openbook_v2::state::Orderbook`: the pair of book sides handed to the
external walking code (the Rust wraps them in `RefCell` borrows of local copies). -/
structure Orderbook where
  bids : BookSide
  asks : BookSide
deriving DecidableEq, Repr

/-- The oracle price `I80F48`, opaque fixed-point raw value. -/
abbrev OraclePrice := Int

/-- `solana_sdk::clock::Clock`, reduced to the fields this adapter could read;
`update` reads only `slot`. -/
structure Clock where
  slot : Nat
  unix_timestamp : Int
deriving DecidableEq, Repr

/-- `openbook_v2::state::Market`, reduced to the fields `jup.rs` reads.
`oracle_a`/`oracle_b` are `NonZeroPubkeyOption`s, embedded directly as
`Option Pubkey` (the Rust converts them with `Option::<Pubkey>::from`). -/
structure Market where
  bids : Pubkey
  asks : Pubkey
  event_heap : Pubkey
  market_base_vault : Pubkey
  market_quote_vault : Pubkey
  base_mint : Pubkey
  quote_mint : Pubkey
  market_authority : Pubkey
  oracle_a : Option Pubkey
  oracle_b : Option Pubkey
  base_lot_size : Int
  quote_lot_size : Int
  taker_fee : Int
  name : String
deriving DecidableEq, Repr

/-- Modelled from the spec: `Market::max_base_lots` is defined outside this
crate's source; the spec calls it "the side's maximum representable size" — the
largest base-lot count whose native base amount still fits a signed 64-bit
integer. -/
def Market.max_base_lots (m : Market) : Int :=
  Int.tdiv (2 ^ 63 - 1) m.base_lot_size

/-- Modelled from the spec: `Market::max_quote_lots`, the quote-side counterpart
of `Market.max_base_lots` (see there). -/
def Market.max_quote_lots (m : Market) : Int :=
  Int.tdiv (2 ^ 63 - 1) m.quote_lot_size

/-- `book::Amounts`, the external simulation result (fields as consumed by
`quote`, native amounts being `u64`). -/
structure Amounts where
  total_base_taken_native : Nat
  total_quote_taken_native : Nat
  fee : Nat
  not_enough_liquidity : Bool
deriving DecidableEq, Repr

/-- `jupiter_amm_interface::Quote`, reduced to the fields `quote` fills in
(the remaining fields come from `Quote::default()` and are never touched). -/
structure Quote where
  in_amount : Nat
  out_amount : Nat
  fee_mint : Pubkey
  fee_amount : Nat
  not_enough_liquidity : Bool
deriving DecidableEq, Repr

/-- `jupiter_amm_interface::QuoteParams`. -/
structure QuoteParams where
  in_amount : Nat
  input_mint : Pubkey
  output_mint : Pubkey
deriving DecidableEq, Repr

/-- The `OpenBookMarket` struct of `jup.rs`. -/
structure OpenBookMarket where
  market : Market
  event_heap : EventHeap
  bids : BookSide
  asks : BookSide
  timestamp : Nat
  key : Pubkey
  label : String
  related_accounts : List Pubkey
  reserve_mints : Pubkey × Pubkey
  oracle_price : Option OraclePrice
deriving DecidableEq, Repr

/-- `Market::try_deserialize`, an external anchor decoder: any total function
from bytes to `Except` over `Market`. -/
abbrev MarketDecoder := Blob → Except String Market

/-- `OpenBookMarket::from_keyed_account` (jup.rs lines 61-90): decode the market,
build the related-accounts watch list (six fixed addresses followed by whichever
oracles are configured), and initialise the book mirrors to zeroed placeholders. -/
def OpenBookMarket.from_keyed_account (decodeMarket : MarketDecoder)
    (keyed_account : KeyedAccount) : Except String OpenBookMarket :=
  match decodeMarket keyed_account.account.data with
  | Except.error e => Except.error e
  | Except.ok market =>
    let related_accounts : List Pubkey :=
      [market.bids, market.asks, market.event_heap,
       market.market_base_vault, market.market_quote_vault, clockID]
      ++ ([market.oracle_a, market.oracle_b].filterMap id)
    Except.ok
      { market := market
        key := keyed_account.key
        label := market.name
        related_accounts := related_accounts
        reserve_mints := (market.base_mint, market.quote_mint)
        event_heap := EventHeap.zeroed
        bids := BookSide.zeroed
        asks := BookSide.zeroed
        oracle_price := none
        timestamp := 0 }

/-- `OpenBookMarket::get_accounts_to_update` (jup.rs lines 57-59): returns the
cached watch list. -/
def OpenBookMarket.get_accounts_to_update (st : OpenBookMarket) : List Pubkey :=
  st.related_accounts

/-- `OpenBookMarket::get_reserve_mints` (jup.rs lines 53-55). -/
def OpenBookMarket.get_reserve_mints (st : OpenBookMarket) : List Pubkey :=
  [st.reserve_mints.1, st.reserve_mints.2]

/-- The error values `update` can return through `?` (anchor/bincode and oracle
errors carry messages; only their presence matters here). -/
inductive UpdateError where
  | clockDecode
  | oracle (e : String)
deriving DecidableEq, Repr

/-- How a call to `update` ends: a returned `Ok(())`, a returned `Err` (Rust `?`),
or a panic (Rust `.unwrap()` on a missing key or failed deserialization). -/
inductive UpdateOutcome where
  | ok
  | err (e : UpdateError)
  | panicked
deriving DecidableEq, Repr

/-- `BookSide::try_deserialize` / `EventHeap::try_deserialize`: external anchor
decoders; `none` models a deserialization failure (which jup.rs `.unwrap()`s). -/
abbrev BookSideDecoder := Blob → Option BookSide

abbrev EventHeapDecoder := Blob → Option EventHeap

/-- `bincode::deserialize::<Clock>`: external; `none` models failure (propagated
by jup.rs with `?`). -/
abbrev ClockDecoder := Blob → Option Clock

/-- `Market::oracle_price(oracle_a_acc, oracle_b_acc, slot)`: external; may fail
(propagated with `?`) or succeed with an optional price. -/
abbrev OraclePriceFn :=
  Market → Option KeyedAccount → Option KeyedAccount → Nat → Except String (Option OraclePrice)

/-- The final statement of `update`:
`self.oracle_price = self.market.oracle_price(a, b, clock.slot)?`. -/
def OpenBookMarket.updateOracleCall (oraclePriceFn : OraclePriceFn)
    (st3 : OpenBookMarket) (clock : Clock) (oracle_acc_a : Option KeyedAccount)
    (oracle_acc_b : Option KeyedAccount) : UpdateOutcome × OpenBookMarket :=
  match oraclePriceFn st3.market oracle_acc_a oracle_acc_b clock.slot with
  | Except.error e => (UpdateOutcome.err (UpdateError.oracle e), st3)
  | Except.ok price => (UpdateOutcome.ok, { st3 with oracle_price := price })

/-- The tail of `update` after the `oracle_a` lookup: resolve `oracle_b` the same
way (`.unwrap()` on the map lookup), then make the final oracle-price call. -/
def OpenBookMarket.updateOracleStage (oraclePriceFn : OraclePriceFn)
    (st3 : OpenBookMarket) (account_map : AccountMap) (clock : Clock)
    (oracle_acc_a : Option KeyedAccount) : UpdateOutcome × OpenBookMarket :=
  match st3.market.oracle_b with
  | some key_b =>
    (match account_map.get key_b with
     | none => (UpdateOutcome.panicked, st3)
     | some acc_b =>
       OpenBookMarket.updateOracleCall oraclePriceFn st3 clock oracle_acc_a
         (some ⟨key_b, acc_b⟩))
  | none => OpenBookMarket.updateOracleCall oraclePriceFn st3 clock oracle_acc_a none

/-- The `oracle_acc(self.market.oracle_a)` argument evaluation of `update`:
look the configured `oracle_a` up in the map (`.unwrap()`), then continue with
`oracle_b`. -/
def OpenBookMarket.updateOracleLookup (oraclePriceFn : OraclePriceFn)
    (st3 : OpenBookMarket) (account_map : AccountMap) (clock : Clock) :
    UpdateOutcome × OpenBookMarket :=
  match st3.market.oracle_a with
  | some key_a =>
    (match account_map.get key_a with
     | none => (UpdateOutcome.panicked, st3)
     | some acc_a =>
       OpenBookMarket.updateOracleStage oraclePriceFn st3 account_map clock
         (some ⟨key_a, acc_a⟩))
  | none => OpenBookMarket.updateOracleStage oraclePriceFn st3 account_map clock none

/-- The clock statements of `update`: look the sysvar clock address up
(`.unwrap()`), `bincode`-decode it (`?`, a returned error on failure), then
continue with the oracle lookups. -/
def OpenBookMarket.updateClockStage (decodeClock : ClockDecoder)
    (oraclePriceFn : OraclePriceFn) (st3 : OpenBookMarket)
    (account_map : AccountMap) : UpdateOutcome × OpenBookMarket :=
  match account_map.get clockID with
  | none => (UpdateOutcome.panicked, st3)
  | some clock_data =>
  match decodeClock clock_data.data with
  | none => (UpdateOutcome.err UpdateError.clockDecode, st3)
  | some clock => OpenBookMarket.updateOracleLookup oraclePriceFn st3 account_map clock

/-- The event-heap statements of `update`: look the heap address up and decode
it (both `.unwrap()`ed), assign `self.event_heap`, then continue with the clock. -/
def OpenBookMarket.updateHeapStage (decodeEventHeap : EventHeapDecoder)
    (decodeClock : ClockDecoder) (oraclePriceFn : OraclePriceFn)
    (st2 : OpenBookMarket) (account_map : AccountMap) :
    UpdateOutcome × OpenBookMarket :=
  match account_map.get st2.market.event_heap with
  | none => (UpdateOutcome.panicked, st2)
  | some event_heap_data =>
  match decodeEventHeap event_heap_data.data with
  | none => (UpdateOutcome.panicked, st2)
  | some new_event_heap =>
    OpenBookMarket.updateClockStage decodeClock oraclePriceFn
      { st2 with event_heap := new_event_heap } account_map

/-- The asks statements of `update`: look the asks address up and decode it
(both `.unwrap()`ed), assign `self.asks`, then continue with the event heap. -/
def OpenBookMarket.updateAsksStage (decodeBookSide : BookSideDecoder)
    (decodeEventHeap : EventHeapDecoder) (decodeClock : ClockDecoder)
    (oraclePriceFn : OraclePriceFn) (st1 : OpenBookMarket)
    (account_map : AccountMap) : UpdateOutcome × OpenBookMarket :=
  match account_map.get st1.market.asks with
  | none => (UpdateOutcome.panicked, st1)
  | some asks_data =>
  match decodeBookSide asks_data.data with
  | none => (UpdateOutcome.panicked, st1)
  | some new_asks =>
    OpenBookMarket.updateHeapStage decodeEventHeap decodeClock oraclePriceFn
      { st1 with asks := new_asks } account_map

/-- `OpenBookMarket::update` (jup.rs lines 92-119), with the external decoders as
parameters.  Mirrors the Rust statement by statement (one stage function per
source statement group): each `account_map.get(..)` and each book/heap
`try_deserialize` is `.unwrap()`ed (panic on failure), the clock decode and the
oracle-price derivation propagate errors with `?`, and the receiver's fields are
assigned one at a time, so the returned state is exactly what `&mut self` holds
when the call stops. -/
def OpenBookMarket.update (decodeBookSide : BookSideDecoder)
    (decodeEventHeap : EventHeapDecoder) (decodeClock : ClockDecoder)
    (oraclePriceFn : OraclePriceFn) (st : OpenBookMarket)
    (account_map : AccountMap) : UpdateOutcome × OpenBookMarket :=
  match account_map.get st.market.bids with
  | none => (UpdateOutcome.panicked, st)
  | some bids_data =>
  match decodeBookSide bids_data.data with
  | none => (UpdateOutcome.panicked, st)
  | some new_bids =>
    OpenBookMarket.updateAsksStage decodeBookSide decodeEventHeap decodeClock
      oraclePriceFn { st with bids := new_bids } account_map

/-- `amounts_from_book(book, side, max_base_lots, max_quote_lots_including_fees,
market, oracle_price, timestamp)`: the external book-walking simulation, taken as
an arbitrary total function. -/
abbrev Simulator :=
  Orderbook → Side → Int → Int → Market → Option OraclePrice → Nat → Except String Amounts

/-- The errors `quote` can return: the `i64::try_from` conversion failure, or an
error propagated from `amounts_from_book`. -/
inductive QuoteError where
  | intConversion
  | sim (e : String)
deriving DecidableEq, Repr

/-- The ceiling derivation shared verbatim by `quote` (jup.rs lines 132-142) and
`get_swap_and_account_metas` (jup.rs lines 229-239):
`(max_base_lots, max_quote_lots_including_fees)` as a function of the side and
the converted input amount. -/
def takerCeilings (m : Market) (side : Side) (input_amount : Int) : Int × Int :=
  match side with
  | Side.Bid =>
    (m.max_base_lots,
     Int.tdiv input_amount m.quote_lot_size + Int.tmod input_amount m.quote_lot_size)
  | Side.Ask =>
    (Int.tdiv input_amount m.base_lot_size,
     m.max_quote_lots)

/-- `OpenBookMarket::quote` (jup.rs lines 121-180): pick the side from the input
mint, convert the input amount to `i64` (error if it does not fit), derive the
ceilings, run the external simulation over copies of the cached book sides, and
map the resulting `Amounts` to a `Quote` with side-dependent in/out semantics. -/
def OpenBookMarket.quote (amounts_from_book : Simulator) (st : OpenBookMarket)
    (quote_params : QuoteParams) : Except QuoteError Quote :=
  let side := if quote_params.input_mint = st.market.quote_mint
              then Side.Bid else Side.Ask
  if quote_params.in_amount < 2 ^ 63 then
    let input_amount : Int := (quote_params.in_amount : Int)
    let ceilings := takerCeilings st.market side input_amount
    let book : Orderbook := ⟨st.bids, st.asks⟩
    match amounts_from_book book side ceilings.1 ceilings.2 st.market
        st.oracle_price st.timestamp with
    | Except.error e => Except.error (QuoteError.sim e)
    | Except.ok order_amounts =>
      let in_out : Nat × Nat :=
        match side with
        | Side.Bid =>
          (order_amounts.total_quote_taken_native - order_amounts.fee,
           order_amounts.total_base_taken_native)
        | Side.Ask =>
          (order_amounts.total_base_taken_native,
           order_amounts.total_quote_taken_native + order_amounts.fee)
      Except.ok
        { in_amount := in_out.1
          out_amount := in_out.2
          fee_mint := st.market.quote_mint
          fee_amount := order_amounts.fee
          not_enough_liquidity := order_amounts.not_enough_liquidity }
  else Except.error QuoteError.intConversion

/-- `solana_sdk::instruction::AccountMeta`. -/
structure AccountMeta where
  pubkey : Pubkey
  is_signer : Bool
  is_writable : Bool
deriving DecidableEq, Repr

/-- `AccountMeta::new(pubkey, false)`: writable, non-signer. -/
def AccountMeta.new (pubkey : Pubkey) (is_signer : Bool) : AccountMeta :=
  { pubkey := pubkey, is_signer := is_signer, is_writable := true }

/-- The `openbook_v2::accounts::PlaceTakeOrder` accounts struct, with the fields
in declaration order as filled by `get_swap_and_account_metas`
(jup.rs lines 206-223). -/
structure PlaceTakeOrder where
  signer : Pubkey
  penalty_payer : Pubkey
  market : Pubkey
  market_authority : Pubkey
  bids : Pubkey
  asks : Pubkey
  user_base_account : Pubkey
  user_quote_account : Pubkey
  market_base_vault : Pubkey
  market_quote_vault : Pubkey
  event_heap : Pubkey
  oracle_a : Option Pubkey
  oracle_b : Option Pubkey
  token_program : Pubkey
  system_program : Pubkey
  open_orders_admin : Option Pubkey
deriving DecidableEq, Repr

/-- Modelled from the spec: anchor's generated
`PlaceTakeOrder::to_account_metas(None)` is outside this crate's source.  The
spec fixes only the address set and order ("signer, market, authority, book
sides, vaults, event heap, optional oracles, token program" in an ordered
(address, isSigner, isWritable) list): the fields in declaration order, the
signing authority flagged as signer, optional accounts included exactly when
configured. -/
def PlaceTakeOrder.to_account_metas (a : PlaceTakeOrder) : List AccountMeta :=
  [⟨a.signer, true, true⟩,
   ⟨a.penalty_payer, true, true⟩,
   ⟨a.market, false, true⟩,
   ⟨a.market_authority, false, false⟩,
   ⟨a.bids, false, true⟩,
   ⟨a.asks, false, true⟩,
   ⟨a.user_base_account, false, true⟩,
   ⟨a.user_quote_account, false, true⟩,
   ⟨a.market_base_vault, false, true⟩,
   ⟨a.market_quote_vault, false, true⟩,
   ⟨a.event_heap, false, true⟩]
  ++ ((([a.oracle_a, a.oracle_b].filterMap id).map
        (fun k => (⟨k, false, false⟩ : AccountMeta))))
  ++ [⟨a.token_program, false, false⟩,
      ⟨a.system_program, false, false⟩]
  ++ (([a.open_orders_admin].filterMap id).map
        (fun k => (⟨k, false, false⟩ : AccountMeta)))

/-- `jupiter_amm_interface::SwapParams`, reduced to the fields destructured by
`get_swap_and_account_metas` (jup.rs lines 183-190). -/
structure SwapParams where
  in_amount : Nat
  source_mint : Pubkey
  user_destination_token_account : Pubkey
  user_source_token_account : Pubkey
  user_transfer_authority : Pubkey
deriving DecidableEq, Repr

/-- `jupiter_amm_interface::Side` (the aggregator's own side enum). -/
inductive JupiterSide where
  | Bid
  | Ask
deriving DecidableEq, Repr

/-- `jupiter_amm_interface::SwapAndAccountMetas` with `Swap::Openbook { side }`. -/
structure SwapAndAccountMetas where
  side : JupiterSide
  account_metas : List AccountMeta
deriving DecidableEq, Repr

/-- `remaining_accounts_to_crank(book, side, ..., timestamp)`: the external
crank-account discovery walk, taken as an arbitrary total function returning the
maker/event addresses in discovery order. -/
abbrev CrankFn :=
  Orderbook → Side → Int → Int → Market → Option OraclePrice → Nat → Except String (List Pubkey)

/-- The errors `get_swap_and_account_metas` can return: the `i64::try_from`
conversion failure, or an error propagated from `remaining_accounts_to_crank`. -/
inductive SwapError where
  | intConversion
  | crank (e : String)
deriving DecidableEq, Repr

/-- `OpenBookMarket::get_swap_and_account_metas` (jup.rs lines 182-274): pick the
side from the source mint, route source/destination token accounts to the
quote/base slots, build the fixed `PlaceTakeOrder` account list, convert the
input amount, derive the ceilings, run the external crank discovery over copies
of the cached book sides, and append the discovered addresses as writable
non-signer metas. -/
def OpenBookMarket.get_swap_and_account_metas (remaining_accounts_to_crank : CrankFn)
    (st : OpenBookMarket) (swap_params : SwapParams) :
    Except SwapError SwapAndAccountMetas :=
  let source_is_quote := swap_params.source_mint = st.market.quote_mint
  let side := if source_is_quote then Side.Bid else Side.Ask
  let user_accounts : Pubkey × Pubkey :=
    if source_is_quote
    then (swap_params.user_source_token_account,
          swap_params.user_destination_token_account)
    else (swap_params.user_destination_token_account,
          swap_params.user_source_token_account)
  let accounts : PlaceTakeOrder :=
    { signer := swap_params.user_transfer_authority
      penalty_payer := swap_params.user_transfer_authority
      market := st.key
      market_authority := st.market.market_authority
      bids := st.market.bids
      asks := st.market.asks
      user_base_account := user_accounts.2
      user_quote_account := user_accounts.1
      market_base_vault := st.market.market_base_vault
      market_quote_vault := st.market.market_quote_vault
      event_heap := st.market.event_heap
      oracle_a := st.market.oracle_a
      oracle_b := st.market.oracle_b
      token_program := tokenProgramID
      system_program := systemProgramID
      open_orders_admin := none }
  let account_metas := accounts.to_account_metas
  if swap_params.in_amount < 2 ^ 63 then
    let input_amount : Int := (swap_params.in_amount : Int)
    let ceilings := takerCeilings st.market side input_amount
    let book : Orderbook := ⟨st.bids, st.asks⟩
    match remaining_accounts_to_crank book side ceilings.1 ceilings.2 st.market
        st.oracle_price st.timestamp with
    | Except.error e => Except.error (SwapError.crank e)
    | Except.ok remainigs =>
      let remainigs_accounts := remainigs.map (fun pubkey => AccountMeta.new pubkey false)
      Except.ok
        { side := if source_is_quote then JupiterSide.Bid else JupiterSide.Ask
          account_metas := account_metas ++ remainigs_accounts }
  else Except.error SwapError.intConversion

/-- Modelled from the spec, for the refinement half of the ceiling claim: "the
requested input amount divided by quote-lot-size, rounding the remainder up into
an extra lot" read as ceiling division — floor quotient plus one extra lot
exactly when the remainder is nonzero. -/
def specQuoteCeil (input_amount q : Int) : Int :=
  Int.tdiv input_amount q + (if Int.tmod input_amount q = 0 then 0 else 1)

/-- The states an `OpenBookMarket` can actually be in: built by
`from_keyed_account` (with some external market decoder) and then stepped any
number of times by `update` (with any external decoders, any account map, any
outcome). -/
inductive Reachable : OpenBookMarket → Prop where
  | init (decodeMarket : MarketDecoder) (ka : KeyedAccount) (st : OpenBookMarket) :
      OpenBookMarket.from_keyed_account decodeMarket ka = Except.ok st → Reachable st
  | step (dBS : BookSideDecoder) (dEH : EventHeapDecoder) (dC : ClockDecoder)
      (oF : OraclePriceFn) (m : AccountMap) (st st' : OpenBookMarket)
      (o : UpdateOutcome) : Reachable st →
      OpenBookMarket.update dBS dEH dC oF st m = (o, st') → Reachable st'

/-! ### Concrete fixtures used by witnesses and counterexamples -/

/-- A market with no oracles configured (lot sizes 100 and 10). -/
def mkt0 : Market :=
  { bids := 11, asks := 12, event_heap := 13, market_base_vault := 14
    market_quote_vault := 15, base_mint := 21, quote_mint := 22
    market_authority := 23, oracle_a := none, oracle_b := none
    base_lot_size := 100, quote_lot_size := 10, taker_fee := 0, name := "MKT" }

/-- `mkt0` with quote-lot-size 3 (exposes the non-ceiling rounding). -/
def mktQ3 : Market := { mkt0 with quote_lot_size := 3 }

/-- `mkt0` with the same address configured as both oracles. -/
def mktDup : Market := { mkt0 with oracle_a := some 41, oracle_b := some 41 }

/-- `mkt0` with a single oracle configured at address 42. -/
def mktOrA : Market := { mkt0 with oracle_a := some 42 }

/-- A view of `mkt0` holding distinguishable book sides. -/
def st0 : OpenBookMarket :=
  { market := mkt0, event_heap := ⟨0⟩, bids := ⟨99⟩, asks := ⟨98⟩
    timestamp := 0, key := 30, label := "MKT"
    related_accounts := [11, 12, 13, 14, 15, clockID]
    reserve_mints := (21, 22), oracle_price := none }

/-- A view of `mktQ3` (quote-lot-size 3). -/
def stQ3 : OpenBookMarket := { st0 with market := mktQ3 }

/-- A view of `mktOrA` (one oracle at 42) whose watch list includes it. -/
def stOrA : OpenBookMarket :=
  { st0 with market := mktOrA
             related_accounts := [11, 12, 13, 14, 15, clockID, 42] }

/-- A simulator that echoes the quote-lot ceiling it was handed back through the
`total_quote_taken_native` field (so `quote`'s output reveals the ceiling). -/
def simCaptureQuoteCeil : Simulator :=
  fun _ _ _ max_quote_lots_including_fees _ _ _ =>
    Except.ok ⟨0, Int.toNat max_quote_lots_including_fees, 0, false⟩

/-- A simulator returning one fixed result. -/
def simConst : Simulator :=
  fun _ _ _ _ _ _ _ => Except.ok ⟨50, 500, 5, false⟩

/-- A crank walk returning two fixed discovered addresses. -/
def crankConst : CrankFn :=
  fun _ _ _ _ _ _ _ => Except.ok [71, 72]

/-- A keyed account with empty payload. -/
def ka0 : KeyedAccount := ⟨30, ⟨[]⟩⟩

/-- A market decoder that always yields `mkt0`. -/
def dmOk : MarketDecoder := fun _ => Except.ok mkt0

/-- A market decoder that always yields `mktDup` (duplicated oracle address). -/
def dmDup : MarketDecoder := fun _ => Except.ok mktDup

/-- A book-side decoder that always succeeds with a recognisable value. -/
def dBS0 : BookSideDecoder := fun _ => some ⟨7⟩

/-- An event-heap decoder that always succeeds with a recognisable value. -/
def dEH0 : EventHeapDecoder := fun _ => some ⟨8⟩

/-- A clock decoder that always fails (bincode decode error). -/
def dCnone : ClockDecoder := fun _ => none

/-- A clock decoder that always succeeds. -/
def dCok : ClockDecoder := fun _ => some ⟨5, 0⟩

/-- An oracle-price derivation that always succeeds with no price. -/
def oFok : OraclePriceFn := fun _ _ _ _ => Except.ok none

/-- An oracle-price derivation that always fails (feed decode failure). -/
def oFerr : OraclePriceFn := fun _ _ _ _ => Except.error "oracle decode"

/-- An account map holding the four fixed non-oracle addresses of `mkt0`. -/
def map0 : AccountMap :=
  [(11, ⟨[1]⟩), (12, ⟨[2]⟩), (13, ⟨[3]⟩), (clockID, ⟨[4]⟩)]

/-- `map0` plus the oracle address 42. -/
def mapOrA : AccountMap := map0 ++ [(42, ⟨[5]⟩)]

/-! ### C1: ceiling derivation before simulation -/

/-- C1 (counterexample): the claim says the bid-side quote ceiling is ceiling
division of the input amount by the quote-lot size.  On the market `mktQ3`
(quote-lot-size 3) with input amount 5, `quote` hands the simulator
`5 / 3 + 5 % 3 = 3` as `max_quote_lots_including_fees` (the echoing simulator
surfaces it as the quote's `in_amount`), while ceiling division gives 2. -/
theorem C1_ceiling_counterexample :
    OpenBookMarket.quote simCaptureQuoteCeil stQ3 ⟨5, 22, 21⟩ =
      Except.ok ⟨3, 0, 22, 0, false⟩
    ∧ specQuoteCeil 5 mktQ3.quote_lot_size = 2
    ∧ (3 : Nat) ≠ 2 := by
  refine ⟨rfl, by decide, by decide⟩

/-- C1 (amended): for a non-negative input amount and positive lot sizes, the
ceilings handed to the simulation by `quote` and `get_swap_and_account_metas`
are: on `Bid`, `max_base_lots` paired with floor quotient PLUS the whole
remainder (`a / q + a % q`), which is at least the spec's ceiling division and
coincides with it exactly when the remainder is at most 1; on `Ask`, the floor
quotient by the base-lot size paired with `max_quote_lots`. -/
theorem C1_ceilings_amended (m : Market) (a : Int) (ha : 0 ≤ a)
    (hq : 0 < m.quote_lot_size) :
    takerCeilings m Side.Bid a =
      (m.max_base_lots, Int.tdiv a m.quote_lot_size + Int.tmod a m.quote_lot_size)
    ∧ takerCeilings m Side.Ask a =
      (Int.tdiv a m.base_lot_size, m.max_quote_lots)
    ∧ specQuoteCeil a m.quote_lot_size ≤ (takerCeilings m Side.Bid a).2
    ∧ ((takerCeilings m Side.Bid a).2 = specQuoteCeil a m.quote_lot_size ↔
        Int.tmod a m.quote_lot_size ≤ 1) := by
  have hr : 0 ≤ Int.tmod a m.quote_lot_size := Int.tmod_nonneg m.quote_lot_size ha
  have h2 : (takerCeilings m Side.Bid a).2 =
      Int.tdiv a m.quote_lot_size + Int.tmod a m.quote_lot_size := rfl
  refine ⟨rfl, rfl, ?_, ?_⟩
  · rw [h2]
    unfold specQuoteCeil
    split <;> omega
  · rw [h2]
    unfold specQuoteCeil
    constructor
    · intro h
      by_cases h0 : Int.tmod a m.quote_lot_size = 0 <;> simp [h0] at h <;> omega
    · intro h
      by_cases h0 : Int.tmod a m.quote_lot_size = 0 <;> simp [h0] <;> omega

/-- C1 (witness for the amended theorem): instantiated on `mktQ3` with input 5. -/
theorem C1_ceilings_amended_witness :
    takerCeilings mktQ3 Side.Bid 5 =
      (mktQ3.max_base_lots, Int.tdiv 5 mktQ3.quote_lot_size + Int.tmod 5 mktQ3.quote_lot_size)
    ∧ takerCeilings mktQ3 Side.Ask 5 =
      (Int.tdiv 5 mktQ3.base_lot_size, mktQ3.max_quote_lots)
    ∧ specQuoteCeil 5 mktQ3.quote_lot_size ≤ (takerCeilings mktQ3 Side.Bid 5).2
    ∧ ((takerCeilings mktQ3 Side.Bid 5).2 = specQuoteCeil 5 mktQ3.quote_lot_size ↔
        Int.tmod 5 mktQ3.quote_lot_size ≤ 1) :=
  C1_ceilings_amended mktQ3 5 (by decide) (by decide)

/-! ### C4: quote side selection and result mapping -/

/-- C4: the side is `Bid` exactly when the input mint is the market's quote
mint; whenever the simulation returns `Amounts`, the quote reports, on `Bid`,
`in = total quote taken − fee` and `out = total base taken`, and on `Ask`,
`in = total base taken` and `out = total quote taken + fee`; the fee mint is
always the market's quote mint and the fee amount is the simulator's fee. -/
theorem C4_quote_mapping (sim : Simulator) (st : OpenBookMarket) (p : QuoteParams)
    (am : Amounts) (hin : p.in_amount < 2 ^ 63)
    (hsim : sim ⟨st.bids, st.asks⟩
        (if p.input_mint = st.market.quote_mint then Side.Bid else Side.Ask)
        (takerCeilings st.market
          (if p.input_mint = st.market.quote_mint then Side.Bid else Side.Ask)
          (p.in_amount : Int)).1
        (takerCeilings st.market
          (if p.input_mint = st.market.quote_mint then Side.Bid else Side.Ask)
          (p.in_amount : Int)).2
        st.market st.oracle_price st.timestamp = Except.ok am) :
    ((if p.input_mint = st.market.quote_mint then Side.Bid else Side.Ask) = Side.Bid ↔
      p.input_mint = st.market.quote_mint)
    ∧ OpenBookMarket.quote sim st p =
        Except.ok
          { in_amount := if p.input_mint = st.market.quote_mint
                         then am.total_quote_taken_native - am.fee
                         else am.total_base_taken_native
            out_amount := if p.input_mint = st.market.quote_mint
                          then am.total_base_taken_native
                          else am.total_quote_taken_native + am.fee
            fee_mint := st.market.quote_mint
            fee_amount := am.fee
            not_enough_liquidity := am.not_enough_liquidity } := by
  have hin' : p.in_amount < 9223372036854775808 := hin
  by_cases hm : p.input_mint = st.market.quote_mint
  · simp only [hm, if_true] at hsim ⊢
    refine ⟨by simp, ?_⟩
    simp [OpenBookMarket.quote, hm, hin', hsim]
  · simp only [hm, if_false] at hsim ⊢
    refine ⟨by simp [hm], ?_⟩
    simp [OpenBookMarket.quote, hm, hin', hsim]

/-- C4 (witness): instantiated with the constant simulator on `st0`, buying
base with quote (Bid side). -/
theorem C4_quote_mapping_witness :
    ((if (22 : Pubkey) = st0.market.quote_mint then Side.Bid else Side.Ask) = Side.Bid ↔
      (22 : Pubkey) = st0.market.quote_mint)
    ∧ OpenBookMarket.quote simConst st0 ⟨1000, 22, 21⟩ =
        Except.ok
          { in_amount := if (22 : Pubkey) = st0.market.quote_mint
                         then 500 - 5 else 50
            out_amount := if (22 : Pubkey) = st0.market.quote_mint
                          then 50 else 500 + 5
            fee_mint := st0.market.quote_mint
            fee_amount := 5
            not_enough_liquidity := false } :=
  C4_quote_mapping simConst st0 ⟨1000, 22, 21⟩ ⟨50, 500, 5, false⟩ (by decide) rfl

/-! ### C9: unrepresentable input is rejected -/

/-- C9: an input amount exceeding the maximum signed 64-bit integer makes
`quote` return the conversion error; within the signed 64-bit range the
conversion step succeeds and the computation proceeds (no conversion error is
ever returned). -/
theorem C9_conversion_bound (sim : Simulator) (st : OpenBookMarket) (p : QuoteParams) :
    (2 ^ 63 ≤ p.in_amount →
      OpenBookMarket.quote sim st p = Except.error QuoteError.intConversion)
    ∧ (p.in_amount < 2 ^ 63 →
      OpenBookMarket.quote sim st p ≠ Except.error QuoteError.intConversion) := by
  constructor
  · intro h
    have h' : ¬ (p.in_amount < 9223372036854775808) := Nat.not_lt.mpr h
    simp [OpenBookMarket.quote, h']
  · intro h
    have h' : p.in_amount < 9223372036854775808 := h
    simp only [OpenBookMarket.quote, h', if_true]
    cases hs : sim ⟨st.bids, st.asks⟩
        (if p.input_mint = st.market.quote_mint then Side.Bid else Side.Ask)
        (takerCeilings st.market
          (if p.input_mint = st.market.quote_mint then Side.Bid else Side.Ask)
          (p.in_amount : Int)).1
        (takerCeilings st.market
          (if p.input_mint = st.market.quote_mint then Side.Bid else Side.Ask)
          (p.in_amount : Int)).2
        st.market st.oracle_price st.timestamp <;> simp [hs, h']

/-- C9 (witness): input `2 ^ 63` is rejected with the conversion error; input 5
is not. -/
theorem C9_conversion_bound_witness :
    OpenBookMarket.quote simConst st0 ⟨2 ^ 63, 22, 21⟩ =
      Except.error QuoteError.intConversion
    ∧ OpenBookMarket.quote simConst st0 ⟨5, 22, 21⟩ ≠
      Except.error QuoteError.intConversion :=
  ⟨(C9_conversion_bound simConst st0 ⟨2 ^ 63, 22, 21⟩).1 (by norm_num),
   (C9_conversion_bound simConst st0 ⟨5, 22, 21⟩).2 (by norm_num)⟩

/-! ### C10: quote determinism -/

/-- C10: `quote` is a pure function of the snapshot — any two states agreeing on
the fields it reads (book sides, market configuration, oracle price, timestamp)
produce equal results for equal parameters; in particular two invocations on one
snapshot are bit-identical, and the embedding's type (`quote` takes the state
only as an input, mirroring the `&self` receiver whose interior-mutable cells
wrap local copies of the `Copy` book sides) records that the snapshot is never
written. -/
theorem C10_quote_deterministic (sim : Simulator) (st st' : OpenBookMarket)
    (p : QuoteParams) (hb : st'.bids = st.bids) (ha : st'.asks = st.asks)
    (hm : st'.market = st.market) (ho : st'.oracle_price = st.oracle_price)
    (ht : st'.timestamp = st.timestamp) :
    OpenBookMarket.quote sim st' p = OpenBookMarket.quote sim st p := by
  simp only [OpenBookMarket.quote, hb, ha, hm, ho, ht]

/-- C10 (witness): the two invocations on the identical snapshot `st0`. -/
theorem C10_quote_deterministic_witness :
    OpenBookMarket.quote simConst st0 ⟨5, 22, 21⟩ =
      OpenBookMarket.quote simConst st0 ⟨5, 22, 21⟩ :=
  C10_quote_deterministic simConst st0 st0 ⟨5, 22, 21⟩ rfl rfl rfl rfl rfl

/-! ### Characterization lemmas for `update` -/

/-- The state-change discipline every `update` path obeys relative to a starting
state `s`: configuration fields are never touched, and `oracle_price` is only
touched by a fully successful call. -/
def UpdateRel (s : OpenBookMarket) (r : UpdateOutcome × OpenBookMarket) : Prop :=
  r.2.market = s.market ∧ r.2.timestamp = s.timestamp ∧ r.2.key = s.key ∧
  r.2.label = s.label ∧ r.2.related_accounts = s.related_accounts ∧
  r.2.reserve_mints = s.reserve_mints ∧
  (r.1 ≠ UpdateOutcome.ok → r.2.oracle_price = s.oracle_price)

theorem updateOracleCall_rel (oF : OraclePriceFn) (st3 : OpenBookMarket)
    (clock : Clock) (oa ob : Option KeyedAccount) :
    UpdateRel st3 (OpenBookMarket.updateOracleCall oF st3 clock oa ob)
    ∧ ((OpenBookMarket.updateOracleCall oF st3 clock oa ob).1 = UpdateOutcome.ok →
      ∃ pr, (OpenBookMarket.updateOracleCall oF st3 clock oa ob).2 =
        { st3 with oracle_price := pr }) := by
  unfold OpenBookMarket.updateOracleCall UpdateRel
  cases h : oF st3.market oa ob clock.slot <;> simp [h]

theorem updateOracleStage_rel (oF : OraclePriceFn) (st3 : OpenBookMarket)
    (m : AccountMap) (clock : Clock) (oa : Option KeyedAccount) :
    UpdateRel st3 (OpenBookMarket.updateOracleStage oF st3 m clock oa)
    ∧ ((OpenBookMarket.updateOracleStage oF st3 m clock oa).1 = UpdateOutcome.ok →
      ∃ pr, (OpenBookMarket.updateOracleStage oF st3 m clock oa).2 =
        { st3 with oracle_price := pr }) := by
  unfold OpenBookMarket.updateOracleStage
  cases hb : st3.market.oracle_b with
  | none => exact updateOracleCall_rel oF st3 clock oa none
  | some key_b =>
    cases hk : m.get key_b with
    | none => simp [UpdateRel, hk]
    | some acc_b =>
      simpa [hk] using updateOracleCall_rel oF st3 clock oa (some ⟨key_b, acc_b⟩)

theorem updateOracleLookup_rel (oF : OraclePriceFn) (st3 : OpenBookMarket)
    (m : AccountMap) (clock : Clock) :
    UpdateRel st3 (OpenBookMarket.updateOracleLookup oF st3 m clock)
    ∧ ((OpenBookMarket.updateOracleLookup oF st3 m clock).1 = UpdateOutcome.ok →
      ∃ pr, (OpenBookMarket.updateOracleLookup oF st3 m clock).2 =
        { st3 with oracle_price := pr }) := by
  unfold OpenBookMarket.updateOracleLookup
  cases ha : st3.market.oracle_a with
  | none => exact updateOracleStage_rel oF st3 m clock none
  | some key_a =>
    cases hk : m.get key_a with
    | none => simp [UpdateRel, hk]
    | some acc_a =>
      simpa [hk] using updateOracleStage_rel oF st3 m clock (some ⟨key_a, acc_a⟩)

theorem updateClockStage_rel (dC : ClockDecoder) (oF : OraclePriceFn)
    (st3 : OpenBookMarket) (m : AccountMap) :
    UpdateRel st3 (OpenBookMarket.updateClockStage dC oF st3 m)
    ∧ ((OpenBookMarket.updateClockStage dC oF st3 m).1 = UpdateOutcome.ok →
      ∃ pr, (OpenBookMarket.updateClockStage dC oF st3 m).2 =
        { st3 with oracle_price := pr }) := by
  unfold OpenBookMarket.updateClockStage
  cases h1 : m.get clockID with
  | none => simp [UpdateRel, h1]
  | some clock_data =>
    cases h2 : dC clock_data.data with
    | none => simp [UpdateRel, h1, h2]
    | some clock => simpa [h1, h2] using updateOracleLookup_rel oF st3 m clock

theorem updateHeapStage_rel (dEH : EventHeapDecoder) (dC : ClockDecoder)
    (oF : OraclePriceFn) (st2 : OpenBookMarket) (m : AccountMap) :
    UpdateRel st2 (OpenBookMarket.updateHeapStage dEH dC oF st2 m)
    ∧ ((OpenBookMarket.updateHeapStage dEH dC oF st2 m).1 = UpdateOutcome.ok →
      ∃ h pr, (OpenBookMarket.updateHeapStage dEH dC oF st2 m).2 =
        { st2 with event_heap := h, oracle_price := pr }) := by
  unfold OpenBookMarket.updateHeapStage
  cases h1 : m.get st2.market.event_heap with
  | none => simp [UpdateRel, h1]
  | some event_heap_data =>
    cases h2 : dEH event_heap_data.data with
    | none => simp [UpdateRel, h1, h2]
    | some new_event_heap =>
      have hrec := updateClockStage_rel dC oF { st2 with event_heap := new_event_heap } m
      simp only [UpdateRel, h1, h2] at hrec ⊢
      obtain ⟨⟨f1, f2, f3, f4, f5, f6, f7⟩, hok⟩ := hrec
      refine ⟨⟨by simp [f1], by simp [f2], by simp [f3], by simp [f4],
        by simp [f5], by simp [f6], by simpa using f7⟩, ?_⟩
      intro h
      obtain ⟨pr, hpr⟩ := hok h
      exact ⟨new_event_heap, pr, by simp [hpr]⟩

theorem updateAsksStage_rel (dBS : BookSideDecoder) (dEH : EventHeapDecoder)
    (dC : ClockDecoder) (oF : OraclePriceFn) (st1 : OpenBookMarket)
    (m : AccountMap) :
    UpdateRel st1 (OpenBookMarket.updateAsksStage dBS dEH dC oF st1 m)
    ∧ ((OpenBookMarket.updateAsksStage dBS dEH dC oF st1 m).1 = UpdateOutcome.ok →
      ∃ a h pr, (OpenBookMarket.updateAsksStage dBS dEH dC oF st1 m).2 =
        { st1 with asks := a, event_heap := h, oracle_price := pr }) := by
  unfold OpenBookMarket.updateAsksStage
  cases h1 : m.get st1.market.asks with
  | none => simp [UpdateRel, h1]
  | some asks_data =>
    cases h2 : dBS asks_data.data with
    | none => simp [UpdateRel, h1, h2]
    | some new_asks =>
      have hrec := updateHeapStage_rel dEH dC oF { st1 with asks := new_asks } m
      simp only [UpdateRel, h1, h2] at hrec ⊢
      obtain ⟨⟨f1, f2, f3, f4, f5, f6, f7⟩, hok⟩ := hrec
      refine ⟨⟨by simp [f1], by simp [f2], by simp [f3], by simp [f4],
        by simp [f5], by simp [f6], by simpa using f7⟩, ?_⟩
      intro h
      obtain ⟨hp, pr, hpr⟩ := hok h
      exact ⟨new_asks, hp, pr, by simp [hpr]⟩

theorem update_rel (dBS : BookSideDecoder) (dEH : EventHeapDecoder)
    (dC : ClockDecoder) (oF : OraclePriceFn) (st : OpenBookMarket)
    (m : AccountMap) :
    UpdateRel st (OpenBookMarket.update dBS dEH dC oF st m)
    ∧ ((OpenBookMarket.update dBS dEH dC oF st m).1 = UpdateOutcome.ok →
      ∃ b a h pr, (OpenBookMarket.update dBS dEH dC oF st m).2 =
        { st with bids := b, asks := a, event_heap := h, oracle_price := pr }) := by
  unfold OpenBookMarket.update
  cases h1 : m.get st.market.bids with
  | none => simp [UpdateRel, h1]
  | some bids_data =>
    cases h2 : dBS bids_data.data with
    | none => simp [UpdateRel, h1, h2]
    | some new_bids =>
      have hrec := updateAsksStage_rel dBS dEH dC oF { st with bids := new_bids } m
      simp only [UpdateRel, h1, h2] at hrec ⊢
      obtain ⟨⟨f1, f2, f3, f4, f5, f6, f7⟩, hok⟩ := hrec
      refine ⟨⟨by simp [f1], by simp [f2], by simp [f3], by simp [f4],
        by simp [f5], by simp [f6], by simpa using f7⟩, ?_⟩
      intro h
      obtain ⟨a, hp, pr, hpr⟩ := hok h
      exact ⟨new_bids, a, hp, pr, by simp [hpr]⟩

theorem updateClockStage_missing (dC : ClockDecoder) (oF : OraclePriceFn)
    (st3 : OpenBookMarket) (m : AccountMap) (h : m.get clockID = none) :
    (OpenBookMarket.updateClockStage dC oF st3 m).1 = UpdateOutcome.panicked := by
  simp [OpenBookMarket.updateClockStage, h]

theorem updateHeapStage_missing (dEH : EventHeapDecoder) (dC : ClockDecoder)
    (oF : OraclePriceFn) (st2 : OpenBookMarket) (m : AccountMap)
    (h : m.get st2.market.event_heap = none ∨ m.get clockID = none) :
    (OpenBookMarket.updateHeapStage dEH dC oF st2 m).1 = UpdateOutcome.panicked := by
  unfold OpenBookMarket.updateHeapStage
  cases h1 : m.get st2.market.event_heap with
  | none => simp [h1]
  | some event_heap_data =>
    rcases h with h | h
    · simp [h1] at h
    · cases h2 : dEH event_heap_data.data with
      | none => simp [h1, h2]
      | some new_event_heap =>
        simpa [h1, h2] using
          updateClockStage_missing dC oF { st2 with event_heap := new_event_heap } m h

theorem updateAsksStage_missing (dBS : BookSideDecoder) (dEH : EventHeapDecoder)
    (dC : ClockDecoder) (oF : OraclePriceFn) (st1 : OpenBookMarket) (m : AccountMap)
    (h : m.get st1.market.asks = none ∨ m.get st1.market.event_heap = none ∨
      m.get clockID = none) :
    (OpenBookMarket.updateAsksStage dBS dEH dC oF st1 m).1 = UpdateOutcome.panicked := by
  unfold OpenBookMarket.updateAsksStage
  cases h1 : m.get st1.market.asks with
  | none => simp [h1]
  | some asks_data =>
    rcases h with h | h
    · simp [h1] at h
    · cases h2 : dBS asks_data.data with
      | none => simp [h1, h2]
      | some new_asks =>
        simpa [h1, h2] using
          updateHeapStage_missing dEH dC oF { st1 with asks := new_asks } m (by simpa using h)

theorem update_missing_fixed (dBS : BookSideDecoder) (dEH : EventHeapDecoder)
    (dC : ClockDecoder) (oF : OraclePriceFn) (st : OpenBookMarket) (m : AccountMap)
    (h : m.get st.market.bids = none ∨ m.get st.market.asks = none ∨
      m.get st.market.event_heap = none ∨ m.get clockID = none) :
    (OpenBookMarket.update dBS dEH dC oF st m).1 = UpdateOutcome.panicked := by
  unfold OpenBookMarket.update
  cases h1 : m.get st.market.bids with
  | none => simp [h1]
  | some bids_data =>
    rcases h with h | h
    · simp [h1] at h
    · cases h2 : dBS bids_data.data with
      | none => simp [h1, h2]
      | some new_bids =>
        simpa [h1, h2] using
          updateAsksStage_missing dBS dEH dC oF { st with bids := new_bids } m (by simpa using h)

theorem updateOracleStage_missingB (oF : OraclePriceFn) (st3 : OpenBookMarket)
    (m : AccountMap) (clock : Clock) (oa : Option KeyedAccount) (k : Pubkey)
    (hb : st3.market.oracle_b = some k) (hn : m.get k = none) :
    (OpenBookMarket.updateOracleStage oF st3 m clock oa).1 = UpdateOutcome.panicked := by
  simp [OpenBookMarket.updateOracleStage, hb, hn]

theorem updateOracleLookup_missing (oF : OraclePriceFn) (st3 : OpenBookMarket)
    (m : AccountMap) (clock : Clock) (k : Pubkey)
    (h : st3.market.oracle_a = some k ∨ st3.market.oracle_b = some k)
    (hn : m.get k = none) :
    (OpenBookMarket.updateOracleLookup oF st3 m clock).1 = UpdateOutcome.panicked := by
  unfold OpenBookMarket.updateOracleLookup
  rcases h with ha | hb
  · simp [ha, hn]
  · cases ha2 : st3.market.oracle_a with
    | none => simpa [ha2] using updateOracleStage_missingB oF st3 m clock none k hb hn
    | some key_a =>
      cases hk : m.get key_a with
      | none => simp [ha2, hk]
      | some acc_a =>
        simpa [ha2, hk] using
          updateOracleStage_missingB oF st3 m clock (some ⟨key_a, acc_a⟩) k hb hn

theorem updateClockStage_missing_oracle (dC : ClockDecoder) (oF : OraclePriceFn)
    (st3 : OpenBookMarket) (m : AccountMap) (k : Pubkey)
    (h : st3.market.oracle_a = some k ∨ st3.market.oracle_b = some k)
    (hn : m.get k = none) :
    (OpenBookMarket.updateClockStage dC oF st3 m).1 = UpdateOutcome.panicked ∨
    (OpenBookMarket.updateClockStage dC oF st3 m).1 =
      UpdateOutcome.err UpdateError.clockDecode := by
  unfold OpenBookMarket.updateClockStage
  cases h1 : m.get clockID with
  | none => simp [h1]
  | some clock_data =>
    cases h2 : dC clock_data.data with
    | none => simp [h1, h2]
    | some clock =>
      exact Or.inl (by simpa [h1, h2] using
        updateOracleLookup_missing oF st3 m clock k h hn)

theorem updateHeapStage_missing_oracle (dEH : EventHeapDecoder) (dC : ClockDecoder)
    (oF : OraclePriceFn) (st2 : OpenBookMarket) (m : AccountMap) (k : Pubkey)
    (h : st2.market.oracle_a = some k ∨ st2.market.oracle_b = some k)
    (hn : m.get k = none) :
    (OpenBookMarket.updateHeapStage dEH dC oF st2 m).1 = UpdateOutcome.panicked ∨
    (OpenBookMarket.updateHeapStage dEH dC oF st2 m).1 =
      UpdateOutcome.err UpdateError.clockDecode := by
  unfold OpenBookMarket.updateHeapStage
  cases h1 : m.get st2.market.event_heap with
  | none => simp [h1]
  | some event_heap_data =>
    cases h2 : dEH event_heap_data.data with
    | none => simp [h1, h2]
    | some new_event_heap =>
      simpa [h1, h2] using
        updateClockStage_missing_oracle dC oF { st2 with event_heap := new_event_heap } m k
          (by simpa using h) hn

theorem updateAsksStage_missing_oracle (dBS : BookSideDecoder) (dEH : EventHeapDecoder)
    (dC : ClockDecoder) (oF : OraclePriceFn) (st1 : OpenBookMarket) (m : AccountMap)
    (k : Pubkey)
    (h : st1.market.oracle_a = some k ∨ st1.market.oracle_b = some k)
    (hn : m.get k = none) :
    (OpenBookMarket.updateAsksStage dBS dEH dC oF st1 m).1 = UpdateOutcome.panicked ∨
    (OpenBookMarket.updateAsksStage dBS dEH dC oF st1 m).1 =
      UpdateOutcome.err UpdateError.clockDecode := by
  unfold OpenBookMarket.updateAsksStage
  cases h1 : m.get st1.market.asks with
  | none => simp [h1]
  | some asks_data =>
    cases h2 : dBS asks_data.data with
    | none => simp [h1, h2]
    | some new_asks =>
      simpa [h1, h2] using
        updateHeapStage_missing_oracle dEH dC oF { st1 with asks := new_asks } m k
          (by simpa using h) hn

theorem update_missing_oracle (dBS : BookSideDecoder) (dEH : EventHeapDecoder)
    (dC : ClockDecoder) (oF : OraclePriceFn) (st : OpenBookMarket) (m : AccountMap)
    (k : Pubkey)
    (h : st.market.oracle_a = some k ∨ st.market.oracle_b = some k)
    (hn : m.get k = none) :
    (OpenBookMarket.update dBS dEH dC oF st m).1 = UpdateOutcome.panicked ∨
    (OpenBookMarket.update dBS dEH dC oF st m).1 =
      UpdateOutcome.err UpdateError.clockDecode := by
  unfold OpenBookMarket.update
  cases h1 : m.get st.market.bids with
  | none => simp [h1]
  | some bids_data =>
    cases h2 : dBS bids_data.data with
    | none => simp [h1, h2]
    | some new_bids =>
      simpa [h1, h2] using
        updateAsksStage_missing_oracle dBS dEH dC oF { st with bids := new_bids } m k
          (by simpa using h) hn

/-- `oracle_acc(nonzero_pubkey)` resolved without panic: relates a configured
oracle slot to the keyed account handed to `Market::oracle_price`. -/
def resolvesOracle (m : AccountMap) : Option Pubkey → Option KeyedAccount → Prop
  | none, oa => oa = none
  | some k, oa => ∃ acc, m.get k = some acc ∧ oa = some ⟨k, acc⟩

theorem updateOracleLookup_call (oF : OraclePriceFn) (st3 : OpenBookMarket)
    (m : AccountMap) (clock : Clock) (oa ob : Option KeyedAccount)
    (hra : resolvesOracle m st3.market.oracle_a oa)
    (hrb : resolvesOracle m st3.market.oracle_b ob) :
    OpenBookMarket.updateOracleLookup oF st3 m clock =
      OpenBookMarket.updateOracleCall oF st3 clock oa ob := by
  unfold OpenBookMarket.updateOracleLookup OpenBookMarket.updateOracleStage
  cases ha : st3.market.oracle_a with
  | none =>
    rw [ha] at hra
    cases hb : st3.market.oracle_b with
    | none =>
      rw [hb] at hrb
      simp [resolvesOracle] at hra hrb
      simp [hra, hrb]
    | some key_b =>
      rw [hb] at hrb
      simp only [resolvesOracle] at hra hrb
      obtain ⟨acc, hacc, hob⟩ := hrb
      simp [hacc, hra, hob]
  | some key_a =>
    rw [ha] at hra
    simp only [resolvesOracle] at hra
    obtain ⟨acca, hacca, hoa⟩ := hra
    cases hb : st3.market.oracle_b with
    | none =>
      rw [hb] at hrb
      simp only [resolvesOracle] at hrb
      simp [hacca, hoa, hrb]
    | some key_b =>
      rw [hb] at hrb
      simp only [resolvesOracle] at hrb
      obtain ⟨accb, haccb, hob⟩ := hrb
      simp [hacca, hoa, haccb, hob]

/-- When every lookup and book/heap decode succeeds and the clock decodes,
`update` reduces to the oracle lookup stage over the partially updated state. -/
theorem update_success_unfold (dBS : BookSideDecoder) (dEH : EventHeapDecoder)
    (dC : ClockDecoder) (oF : OraclePriceFn) (st : OpenBookMarket) (m : AccountMap)
    (bd ad hd cd : Account) (b a : BookSide) (hp : EventHeap) (ck : Clock)
    (h1 : m.get st.market.bids = some bd) (h2 : dBS bd.data = some b)
    (h3 : m.get st.market.asks = some ad) (h4 : dBS ad.data = some a)
    (h5 : m.get st.market.event_heap = some hd) (h6 : dEH hd.data = some hp)
    (h7 : m.get clockID = some cd) (h8 : dC cd.data = some ck) :
    OpenBookMarket.update dBS dEH dC oF st m =
      OpenBookMarket.updateOracleLookup oF
        { st with bids := b, asks := a, event_heap := hp } m ck := by
  simp [OpenBookMarket.update, OpenBookMarket.updateAsksStage,
    OpenBookMarket.updateHeapStage, OpenBookMarket.updateClockStage,
    h1, h2, h3, h4, h5, h6, h7, h8]

/-- Whether an `update` outcome is a returned `Err`. -/
def UpdateOutcome.isErr : UpdateOutcome → Bool
  | UpdateOutcome.err _ => true
  | _ => false

/-! ### C2: refresh is all-or-nothing -/

/-- C2 (counterexample): a refresh in which the bids, asks and event-heap blobs
decode but the clock blob does not returns an error, yet the bids field already
holds the newly decoded value — the failed refresh did not leave every decoded
field identical to its pre-call value. -/
theorem C2_counterexample :
    (OpenBookMarket.update dBS0 dEH0 dCnone oFok st0 map0).1 ≠ UpdateOutcome.ok
    ∧ (OpenBookMarket.update dBS0 dEH0 dCnone oFok st0 map0).2.bids ≠ st0.bids := by
  refine ⟨by decide, by decide⟩

/-- C2 (amended): refresh is not all-or-nothing; what holds is: on a
non-successful call `oracle_price` (and every configuration field — market,
timestamp, key, label, watch list, reserve mints) is unchanged, but bids, asks
and the event heap may already have been replaced (the fields are assigned in
sequence); on success the four decoded fields are exactly a wholesale
replacement of bids, asks, event heap and oracle price, with everything else
untouched. -/
theorem C2_update_not_atomic_amended (dBS : BookSideDecoder)
    (dEH : EventHeapDecoder) (dC : ClockDecoder) (oF : OraclePriceFn)
    (st : OpenBookMarket) (m : AccountMap) :
    ((OpenBookMarket.update dBS dEH dC oF st m).1 ≠ UpdateOutcome.ok →
      (OpenBookMarket.update dBS dEH dC oF st m).2.oracle_price = st.oracle_price)
    ∧ ((OpenBookMarket.update dBS dEH dC oF st m).1 = UpdateOutcome.ok →
      ∃ b a h pr, (OpenBookMarket.update dBS dEH dC oF st m).2 =
        { st with bids := b, asks := a, event_heap := h, oracle_price := pr })
    ∧ (OpenBookMarket.update dBS dEH dC oF st m).2.market = st.market
    ∧ (OpenBookMarket.update dBS dEH dC oF st m).2.timestamp = st.timestamp
    ∧ (OpenBookMarket.update dBS dEH dC oF st m).2.key = st.key
    ∧ (OpenBookMarket.update dBS dEH dC oF st m).2.label = st.label
    ∧ (OpenBookMarket.update dBS dEH dC oF st m).2.related_accounts = st.related_accounts
    ∧ (OpenBookMarket.update dBS dEH dC oF st m).2.reserve_mints = st.reserve_mints := by
  obtain ⟨⟨f1, f2, f3, f4, f5, f6, f7⟩, hok⟩ := update_rel dBS dEH dC oF st m
  exact ⟨f7, hok, f1, f2, f3, f4, f5, f6⟩

/-- C2 (witness for the amended theorem): on the clock-decode failure of the
counterexample, `oracle_price` is indeed unchanged. -/
theorem C2_update_not_atomic_amended_witness :
    (OpenBookMarket.update dBS0 dEH0 dCnone oFok st0 map0).2.oracle_price =
      st0.oracle_price :=
  (C2_update_not_atomic_amended dBS0 dEH0 dCnone oFok st0 map0).1 (by decide)

/-! ### C3: missing tracked address is a reported error -/

/-- C3 (counterexample): refreshing with an empty account map (so the tracked
bids address is absent) makes `update` panic (an `.unwrap()` on `None`) instead
of returning an error result. -/
theorem C3_counterexample :
    (OpenBookMarket.update dBS0 dEH0 dCok oFok st0 []).1 = UpdateOutcome.panicked
    ∧ ((OpenBookMarket.update dBS0 dEH0 dCok oFok st0 []).1).isErr = false := by
  refine ⟨by decide, by decide⟩

/-- C3 (amended): a missing tracked address is never reported as a returned
error: if the bids, asks, event-heap or clock address is absent from the map,
`update` panics; if a configured oracle address is absent, `update` either
panics or (only when the clock blob fails to decode first) returns the
clock-decode error — the missing oracle address itself is never reported. -/
theorem C3_missing_address_amended (dBS : BookSideDecoder)
    (dEH : EventHeapDecoder) (dC : ClockDecoder) (oF : OraclePriceFn)
    (st : OpenBookMarket) (m : AccountMap) :
    ((m.get st.market.bids = none ∨ m.get st.market.asks = none ∨
      m.get st.market.event_heap = none ∨ m.get clockID = none) →
      (OpenBookMarket.update dBS dEH dC oF st m).1 = UpdateOutcome.panicked)
    ∧ (∀ k, (st.market.oracle_a = some k ∨ st.market.oracle_b = some k) →
        m.get k = none →
        (OpenBookMarket.update dBS dEH dC oF st m).1 = UpdateOutcome.panicked ∨
        (OpenBookMarket.update dBS dEH dC oF st m).1 =
          UpdateOutcome.err UpdateError.clockDecode) :=
  ⟨fun h => update_missing_fixed dBS dEH dC oF st m h,
   fun k hk hn => update_missing_oracle dBS dEH dC oF st m k hk hn⟩

/-- C3 (witness for the amended theorem): the empty map panics on the missing
bids address; a map missing only the configured oracle address 42 panics or
fails on the clock. -/
theorem C3_missing_address_amended_witness :
    (OpenBookMarket.update dBS0 dEH0 dCok oFok st0 []).1 = UpdateOutcome.panicked
    ∧ ((OpenBookMarket.update dBS0 dEH0 dCok oFok stOrA map0).1 =
        UpdateOutcome.panicked ∨
      (OpenBookMarket.update dBS0 dEH0 dCok oFok stOrA map0).1 =
        UpdateOutcome.err UpdateError.clockDecode) :=
  ⟨(C3_missing_address_amended dBS0 dEH0 dCok oFok st0 []).1 (by decide),
   (C3_missing_address_amended dBS0 dEH0 dCok oFok stOrA map0).2 42
     (by decide) (by decide)⟩

/-! ### C5: oracle failure is not silently absorbed -/

/-- C5: when every tracked lookup succeeds, all blobs decode, the configured
oracle accounts are present (resolved to the keyed accounts handed to the
oracle-price derivation), and the derivation itself fails with `e`, `update`
returns exactly that error and leaves `oracle_price` as it was — it does not
proceed with an absent (`none`) price. -/
theorem C5_oracle_error_propagates (dBS : BookSideDecoder) (dEH : EventHeapDecoder)
    (dC : ClockDecoder) (oF : OraclePriceFn) (st : OpenBookMarket) (m : AccountMap)
    (bd ad hd cd : Account) (b a : BookSide) (hp : EventHeap) (ck : Clock)
    (oa ob : Option KeyedAccount) (e : String)
    (h1 : m.get st.market.bids = some bd) (h2 : dBS bd.data = some b)
    (h3 : m.get st.market.asks = some ad) (h4 : dBS ad.data = some a)
    (h5 : m.get st.market.event_heap = some hd) (h6 : dEH hd.data = some hp)
    (h7 : m.get clockID = some cd) (h8 : dC cd.data = some ck)
    (hra : resolvesOracle m st.market.oracle_a oa)
    (hrb : resolvesOracle m st.market.oracle_b ob)
    (he : oF st.market oa ob ck.slot = Except.error e) :
    (OpenBookMarket.update dBS dEH dC oF st m).1 =
      UpdateOutcome.err (UpdateError.oracle e)
    ∧ (OpenBookMarket.update dBS dEH dC oF st m).2.oracle_price =
      st.oracle_price := by
  have h9 := update_success_unfold dBS dEH dC oF st m bd ad hd cd b a hp ck
    h1 h2 h3 h4 h5 h6 h7 h8
  have h10 := updateOracleLookup_call oF
    { st with bids := b, asks := a, event_heap := hp } m ck oa ob
    (by simpa using hra) (by simpa using hrb)
  rw [h9, h10]
  unfold OpenBookMarket.updateOracleCall
  simp only []
  have he' : oF ({ st with bids := b, asks := a, event_heap := hp} :
      OpenBookMarket).market oa ob ck.slot = Except.error e := by simpa using he
  simp [he']

/-- C5 (witness): one oracle configured at address 42, all accounts present, the
derivation failing with a decode error — `update` returns it. -/
theorem C5_oracle_error_propagates_witness :
    (OpenBookMarket.update dBS0 dEH0 dCok oFerr stOrA mapOrA).1 =
      UpdateOutcome.err (UpdateError.oracle "oracle decode")
    ∧ (OpenBookMarket.update dBS0 dEH0 dCok oFerr stOrA mapOrA).2.oracle_price =
      stOrA.oracle_price :=
  C5_oracle_error_propagates dBS0 dEH0 dCok oFerr stOrA mapOrA
    ⟨[1]⟩ ⟨[2]⟩ ⟨[3]⟩ ⟨[4]⟩ ⟨7⟩ ⟨7⟩ ⟨8⟩ ⟨5, 0⟩
    (some ⟨42, ⟨[5]⟩⟩) none "oracle decode"
    (by decide) rfl (by decide) rfl (by decide) rfl (by decide) rfl
    ⟨⟨[5]⟩, by decide, rfl⟩ rfl rfl

/-! ### C6: the timestamp field is never written after construction -/

/-- The state `from_keyed_account dmOk ka0` builds (used by witnesses). -/
def stInit : OpenBookMarket :=
  { market := mkt0, event_heap := ⟨0⟩, bids := ⟨0⟩, asks := ⟨0⟩
    timestamp := 0, key := 30, label := "MKT"
    related_accounts := [11, 12, 13, 14, 15, clockID]
    reserve_mints := (21, 22), oracle_price := none }

/-- C6: `from_keyed_account` initialises `timestamp` to 0 and `update` never
touches it, so every state the adapter can actually reach carries timestamp 0;
consequently `quote` and `get_swap_and_account_metas` — which by definition
hand `st.timestamp` to the external book walk — behave exactly as on the
timestamp-0 state. -/
theorem C6_timestamp_never_written (st : OpenBookMarket) (hr : Reachable st) :
    st.timestamp = 0
    ∧ (∀ sim p, OpenBookMarket.quote sim st p =
        OpenBookMarket.quote sim { st with timestamp := 0 } p)
    ∧ (∀ ck sp, OpenBookMarket.get_swap_and_account_metas ck st sp =
        OpenBookMarket.get_swap_and_account_metas ck { st with timestamp := 0 } sp) := by
  have hts : st.timestamp = 0 := by
    induction hr with
    | init dm ka st hok =>
      unfold OpenBookMarket.from_keyed_account at hok
      cases hdm : dm ka.account.data with
      | error e => rw [hdm] at hok; exact absurd hok (by simp)
      | ok market =>
        rw [hdm] at hok
        simp only [Except.ok.injEq] at hok
        rw [← hok]
    | step dBS dEH dC oF m st st' o hr heq ih =>
      have hframe := (update_rel dBS dEH dC oF st m).1
      rw [heq] at hframe
      exact hframe.2.1.trans ih
  have hself : ({ st with timestamp := 0 } : OpenBookMarket) = st := by
    cases st
    simp_all
  rw [hself]
  exact ⟨hts, fun _ _ => rfl, fun _ _ => rfl⟩

/-- C6 (witness): the freshly constructed state is reachable and carries
timestamp 0. -/
theorem C6_timestamp_never_written_witness : stInit.timestamp = 0 :=
  (C6_timestamp_never_written stInit (Reachable.init dmOk ka0 stInit rfl)).1

/-! ### C7: tracked-address list contents and stability -/

/-- The state `from_keyed_account dmDup ka0` builds: both oracles configured at
the same address 41, which the watch list then carries twice. -/
def stDup : OpenBookMarket :=
  { market := mktDup, event_heap := ⟨0⟩, bids := ⟨0⟩, asks := ⟨0⟩
    timestamp := 0, key := 30, label := "MKT"
    related_accounts := [11, 12, 13, 14, 15, clockID, 41, 41]
    reserve_mints := (21, 22), oracle_price := none }

/-- C7 (counterexample): a market whose two oracle slots hold the same address
41 decodes successfully, and the cached watch list contains 41 twice — the
claim's "never duplicated" fails. -/
theorem C7_counterexample :
    OpenBookMarket.from_keyed_account dmDup ka0 = Except.ok stDup
    ∧ stDup.get_accounts_to_update = [11, 12, 13, 14, 15, clockID, 41, 41]
    ∧ ¬ stDup.get_accounts_to_update.Nodup := by
  refine ⟨rfl, rfl, by decide⟩

/-- C7 (amended): the cached watch list is exactly the market's bids, asks,
event heap, base vault, quote vault and the system clock address, followed by
the configured oracle addresses in slot order (`oracle_a` then `oracle_b`, each
included exactly when set — an address configured in both slots appears twice);
`get_accounts_to_update` returns the cached list and `update` never modifies
it, so repeated calls return the same sequence in the same order. -/
theorem C7_tracked_list_amended :
    (∀ dm ka st, OpenBookMarket.from_keyed_account dm ka = Except.ok st →
      st.get_accounts_to_update =
        [st.market.bids, st.market.asks, st.market.event_heap,
         st.market.market_base_vault, st.market.market_quote_vault, clockID]
        ++ ([st.market.oracle_a, st.market.oracle_b].filterMap id))
    ∧ (∀ dBS dEH dC oF st m,
        ((OpenBookMarket.update dBS dEH dC oF st m).2).get_accounts_to_update =
          st.get_accounts_to_update) := by
  constructor
  · intro dm ka st hok
    unfold OpenBookMarket.from_keyed_account at hok
    cases hdm : dm ka.account.data with
    | error e => rw [hdm] at hok; exact absurd hok (by simp)
    | ok market =>
      rw [hdm] at hok
      simp only [Except.ok.injEq] at hok
      rw [← hok]
      rfl
  · intro dBS dEH dC oF st m
    have hframe := (update_rel dBS dEH dC oF st m).1
    exact hframe.2.2.2.2.1

/-- C7 (witness for the amended theorem): the fresh state's watch list has the
stated shape, and one `update` step leaves it intact. -/
theorem C7_tracked_list_amended_witness :
    stInit.get_accounts_to_update =
      [stInit.market.bids, stInit.market.asks, stInit.market.event_heap,
       stInit.market.market_base_vault, stInit.market.market_quote_vault, clockID]
      ++ ([stInit.market.oracle_a, stInit.market.oracle_b].filterMap id)
    ∧ ((OpenBookMarket.update dBS0 dEH0 dCok oFok st0 map0).2).get_accounts_to_update =
      st0.get_accounts_to_update :=
  ⟨C7_tracked_list_amended.1 dmOk ka0 stInit rfl,
   C7_tracked_list_amended.2 dBS0 dEH0 dCok oFok st0 map0⟩

/-! ### C8: swap account assembly -/

/-- C8: whenever the input amount is representable and the crank walk returns a
list of discovered addresses, `get_swap_and_account_metas` returns the fixed
`PlaceTakeOrder` settlement set (signer, penalty payer, market, market
authority, bids, asks, the user base and quote accounts routed by which of
source/destination is the quote side, both vaults, event heap, the configured
oracle accounts, token program, system program) followed by the discovered
crank accounts in discovery order as writable non-signers; the side is `Bid`
exactly when the source mint is the market's quote mint. -/
theorem C8_swap_account_assembly (crank : CrankFn) (st : OpenBookMarket)
    (sp : SwapParams) (lst : List Pubkey) (hin : sp.in_amount < 2 ^ 63)
    (hcrank : crank ⟨st.bids, st.asks⟩
        (if sp.source_mint = st.market.quote_mint then Side.Bid else Side.Ask)
        (takerCeilings st.market
          (if sp.source_mint = st.market.quote_mint then Side.Bid else Side.Ask)
          (sp.in_amount : Int)).1
        (takerCeilings st.market
          (if sp.source_mint = st.market.quote_mint then Side.Bid else Side.Ask)
          (sp.in_amount : Int)).2
        st.market st.oracle_price st.timestamp = Except.ok lst) :
    ((if sp.source_mint = st.market.quote_mint then JupiterSide.Bid else JupiterSide.Ask) =
        JupiterSide.Bid ↔ sp.source_mint = st.market.quote_mint)
    ∧ OpenBookMarket.get_swap_and_account_metas crank st sp =
      Except.ok
        { side := if sp.source_mint = st.market.quote_mint
                  then JupiterSide.Bid else JupiterSide.Ask
          account_metas :=
            PlaceTakeOrder.to_account_metas
              { signer := sp.user_transfer_authority
                penalty_payer := sp.user_transfer_authority
                market := st.key
                market_authority := st.market.market_authority
                bids := st.market.bids
                asks := st.market.asks
                user_base_account := if sp.source_mint = st.market.quote_mint
                                     then sp.user_destination_token_account
                                     else sp.user_source_token_account
                user_quote_account := if sp.source_mint = st.market.quote_mint
                                      then sp.user_source_token_account
                                      else sp.user_destination_token_account
                market_base_vault := st.market.market_base_vault
                market_quote_vault := st.market.market_quote_vault
                event_heap := st.market.event_heap
                oracle_a := st.market.oracle_a
                oracle_b := st.market.oracle_b
                token_program := tokenProgramID
                system_program := systemProgramID
                open_orders_admin := none }
            ++ lst.map (fun pubkey => AccountMeta.new pubkey false) } := by
  have hin' : sp.in_amount < 9223372036854775808 := hin
  by_cases hsq : sp.source_mint = st.market.quote_mint
  · simp only [hsq, if_true] at hcrank ⊢
    refine ⟨by simp, ?_⟩
    simp [OpenBookMarket.get_swap_and_account_metas, hsq, hin', hcrank]
  · simp only [hsq, if_false] at hcrank ⊢
    refine ⟨by simp [hsq], ?_⟩
    simp [OpenBookMarket.get_swap_and_account_metas, hsq, hin', hcrank]

/-- C8 (witness): the constant crank walk on `st0`, paying quote (Bid side). -/
theorem C8_swap_account_assembly_witness :
    ((if (22 : Pubkey) = st0.market.quote_mint then JupiterSide.Bid else JupiterSide.Ask) =
        JupiterSide.Bid ↔ (22 : Pubkey) = st0.market.quote_mint)
    ∧ OpenBookMarket.get_swap_and_account_metas crankConst st0 ⟨1000, 22, 51, 52, 53⟩ =
      Except.ok
        { side := if (22 : Pubkey) = st0.market.quote_mint
                  then JupiterSide.Bid else JupiterSide.Ask
          account_metas :=
            PlaceTakeOrder.to_account_metas
              { signer := 53
                penalty_payer := 53
                market := st0.key
                market_authority := st0.market.market_authority
                bids := st0.market.bids
                asks := st0.market.asks
                user_base_account := if (22 : Pubkey) = st0.market.quote_mint
                                     then 51 else 52
                user_quote_account := if (22 : Pubkey) = st0.market.quote_mint
                                      then 52 else 51
                market_base_vault := st0.market.market_base_vault
                market_quote_vault := st0.market.market_quote_vault
                event_heap := st0.market.event_heap
                oracle_a := st0.market.oracle_a
                oracle_b := st0.market.oracle_b
                token_program := tokenProgramID
                system_program := systemProgramID
                open_orders_admin := none }
            ++ ([71, 72] : List Pubkey).map (fun pubkey => AccountMeta.new pubkey false) } :=
  C8_swap_account_assembly crankConst st0 ⟨1000, 22, 51, 52, 53⟩ [71, 72]
    (by norm_num) rfl
